import Mathlib

/-!
Shallow embedding of the pTock terminal clock (authoritative variant:
`font.py`, `view.py`, `mechanism.py`) and verification of its
natural-language specification.

Python integers are modelled as `ℤ` (or `ℕ` where the source value is
manifestly non-negative), Python floats holding POSIX timestamps as `ℚ`,
Python exceptions as an explicit error type threaded through `Except`,
and the curses pixel buffer (a Python `dict`) as a function to `Option`.
-/

namespace PTock

/-- Kinds of Python exceptions that the embedded fragments can raise. -/
inductive PyErr
  | keyError
  | indexError
  | typeError
deriving DecidableEq, Repr

/-- An element of the `list[int | str]` produced by `datetime_slicer` and
consumed by `map_to_symbols` in `view.py`. -/
inductive Elem
  | int (n : ℤ)
  | str (s : String)
deriving DecidableEq, Repr

/-- A value stored in the glyph table of `font.py`: the source stores
`COLON` and the `DIGIT` entries as 16-character strings but `SPACE`, `A`,
`P` and `M` as machine integers. -/
inductive FontVal
  | str (s : String)
  | nat (n : ℕ)
deriving DecidableEq, Repr

/-- Height of a single character in bits (`font.py`: `H = 5`).
`view.py` imports this quantity under the name `SHAPE_HEIGHT`. -/
def SHAPE_HEIGHT : ℤ := 5

/-- Width of a single character in bits (`font.py`: `W = 3`).
`view.py` imports this quantity under the name `SHAPE_WIDTH`. -/
def SHAPE_WIDTH : ℤ := 3

/-- Bitmap of the colon character (`font.py`, a string constant). -/
def COLON : FontVal := .str "0000010000010000"

/-- Bitmap of the space character (`font.py`, an integer constant). -/
def SPACE : FontVal := .nat 0b0000000000000000

/-- Bitmap of the letter A (`font.py`, an integer constant). -/
def A : FontVal := .nat 0b0010101111101101

/-- Bitmap of the letter P (`font.py`, an integer constant). -/
def P : FontVal := .nat 0b0111101111100100

/-- Bitmap of the letter M (`font.py`, an integer constant). -/
def M : FontVal := .nat 0b0101111101101101

/-- Bitmap digits from 0 to 9 (`font.py`, a list of strings). -/
def DIGIT : List String :=
  [ "0111101101101111"
  , "0010110010010111"
  , "0111001111100111"
  , "0111001111001111"
  , "0101101111001001"
  , "0111100111001111"
  , "0111100111101111"
  , "0111001001001001"
  , "0111101111101111"
  , "0111101111001111" ]

/-- The string-keyed dictionary literal inside `map_to_symbols`
(`view.py` lines 354-360). -/
def glyph_dict (s : String) : Option FontVal :=
  if s = ":" then some COLON
  else if s = " " then some SPACE
  else if s = "A" then some A
  else if s = "P" then some P
  else if s = "M" then some M
  else none

/-- Python list indexing `xs[i]`: non-negative indices are bounds-checked,
negative indices wrap from the end, anything else raises `IndexError`. -/
def pyListIndex (xs : List String) (i : ℤ) : Except PyErr String :=
  if 0 ≤ i ∧ i < (xs.length : ℤ) then .ok (xs.getD i.toNat "")
  else if -(xs.length : ℤ) ≤ i ∧ i < 0 then .ok (xs.getD (i + (xs.length : ℤ)).toNat "")
  else .error .indexError

/-- Python `list(v)` applied to a glyph-table value: a string becomes the
list of its characters; an integer is not iterable and raises
`TypeError`. -/
def pyListOfVal (v : FontVal) : Except PyErr (List Char) :=
  match v with
  | .str s => .ok s.toList
  | .nat _ => .error .typeError

/-- The glyph-table lookup performed by one iteration of the
`map_to_symbols` loop: a string is looked up in the dictionary literal
(`KeyError` when absent) and an integer indexes the `DIGIT` list. -/
def lookup_glyph (e : Elem) : Except PyErr FontVal :=
  match e with
  | .str s =>
      match glyph_dict s with
      | some v => .ok v
      | none => .error .keyError
  | .int n => (pyListIndex DIGIT n).map FontVal.str

/-- One iteration of the loop body of `map_to_symbols` (`view.py`
lines 351-364): the glyph-table lookup followed by `list(...)` on the
looked-up value. -/
def map_one (e : Elem) : Except PyErr (List Char) := do
  let v ← lookup_glyph e
  pyListOfVal v

/-- `map_to_symbols` (`view.py` lines 338-366): maps each element to its
glyph cell list; the first raised exception aborts the loop and
propagates. -/
def map_to_symbols : List Elem → Except PyErr (List (List Char))
  | [] => .ok []
  | e :: es => do
      let cells ← map_one e
      let rest ← map_to_symbols es
      .ok (cells :: rest)

/-- Python `int(now.strftime("%I"))`: the 12-hour clock value of hour
`h`, with 0 and 12 both rendered as 12. -/
def pyHourI (h : ℕ) : ℕ :=
  if h % 12 = 0 then 12 else h % 12

/-- Python `now.strftime("%p")` in the C locale: the meridiem designator
of hour `h`. -/
def pyAmPm (h : ℕ) : String :=
  if h < 12 then "AM" else "PM"

/-- `datetime_slicer` (`view.py` lines 293-335), with the timestamp
represented by its hour, minute and second fields. -/
def datetime_slicer (h m s : ℕ) (show_seconds military_time : Bool) : List Elem :=
  let hours : ℕ := if military_time then h else pyHourI h
  let am_pm_indicator : String := if military_time then "" else pyAmPm h
  let output_list : List Elem :=
    [ .int (hours / 10), .int (hours % 10), .str ":", .int (m / 10), .int (m % 10) ]
  let output_list :=
    if show_seconds then
      output_list ++ [ .str ":", .int (s / 10), .int (s % 10) ]
    else output_list
  if military_time then output_list
  else output_list ++ [Elem.str " "] ++ am_pm_indicator.toList.map (fun c => Elem.str (String.mk [c]))

/-- The symbol alphabet of the glyph table as the specification states
it: the digits 0-9 (carried as integers on the slicer-to-mapper path)
and the five separator and meridiem strings. -/
def inAlphabet : Elem → Bool
  | .int n => decide (0 ≤ n) && decide (n ≤ 9)
  | .str s => decide (s = ":") || decide (s = " ") || decide (s = "A")
      || decide (s = "P") || decide (s = "M")

/-- The glyph count of the clock face, computed identically in
`__calculate_center_xy_position` and `__check_fit` (`view.py`):
`5 + (3 if show_seconds else 0) + (3 if not military_time else 0)`. -/
def clock_digits_count (show_seconds military_time : Bool) : ℤ :=
  5 + (if show_seconds then 3 else 0) + (if military_time then 0 else 3)

/-- The display and screen state of a `ViewConnector` that the layout
computations read and write (`view.py` constructor fields). -/
structure ViewState where
  top_left_x : ℤ
  top_left_y : ℤ
  tiles_per_pixel_width : ℤ
  tiles_per_pixel_height : ℤ
  show_seconds : Bool
  military_time : Bool
  align_to_center : Bool
  screen_height : ℤ
  screen_width : ℤ
deriving DecidableEq, Repr

/-- Python 3 `round(k / 2)` for an integer `k`: the quotient is a half-
integer, and Python rounds exact halves to the nearest even integer
(banker's rounding). -/
def pyRoundHalf (k : ℤ) : ℤ :=
  let m := Int.fdiv k 2
  if k % 2 = 0 then m
  else if m % 2 = 0 then m else m + 1

/-- The cell height `pixel_height = SHAPE_HEIGHT *
tiles_per_pixel_height`, as computed in both
`__calculate_center_xy_position` and `__check_fit` (`view.py`). -/
def pixel_height (v : ViewState) : ℤ := SHAPE_HEIGHT * v.tiles_per_pixel_height

/-- The cell width `pixel_width = SHAPE_WIDTH * tiles_per_pixel_width`,
as computed in both `__calculate_center_xy_position` and `__check_fit`
(`view.py`). -/
def pixel_width (v : ViewState) : ℤ := SHAPE_WIDTH * v.tiles_per_pixel_width

/-- The total width `total_length_with_spaces = clock_digits_count *
pixel_width + (clock_digits_count - 1) * tiles_per_pixel_width`, as
computed in both `__calculate_center_xy_position` and `__check_fit`
(`view.py`). -/
def total_length_with_spaces (v : ViewState) : ℤ :=
  clock_digits_count v.show_seconds v.military_time * pixel_width v
    + (clock_digits_count v.show_seconds v.military_time - 1) * v.tiles_per_pixel_width

/-- `ViewConnector.__calculate_center_xy_position` (`view.py` lines
165-183): overwrites the top-left origin with the centered position. -/
def calculate_center_xy_position (v : ViewState) : ViewState :=
  { v with
      top_left_y := pyRoundHalf (v.screen_height - pixel_height v)
      top_left_x := pyRoundHalf (v.screen_width - total_length_with_spaces v) }

/-- The centering step of `ViewConnector.__handle_resize` (`view.py`
lines 214-227): the centered origin is recomputed only when the
`align_to_center` flag is set. -/
def resize_center_step (v : ViewState) : ViewState :=
  if v.align_to_center then calculate_center_xy_position v else v

/-- `ViewConnector.__check_fit` (`view.py` lines 185-212): `true` when
the clock fits in the available screen space below and to the right of
the origin. -/
def check_fit (v : ViewState) : Bool :=
  if v.screen_height - v.top_left_y < pixel_height v then false
  else if v.screen_width - v.top_left_x ≥ total_length_with_spaces v then true
  else false

/-- The pixel buffer of a `ViewConnector`: the Python dict keyed by the
string `f"\x7bx\x7d:\x7by\x7d"` (the key is in bijection with the
coordinate pair, since the decimal rendering of an integer contains no
colon) storing the last pixel value written at each coordinate. -/
def Buffer : Type := ℤ × ℤ → Option String

/-- Pointwise update of a buffer entry (dict assignment or `pop`). -/
def bufSet (b : Buffer) (k : ℤ × ℤ) (v : Option String) : Buffer :=
  fun k2 => if k2 = k then v else b k2

/-- `ViewConnector.__draw_pixel` (`view.py` lines 86-107). The terminal
surface is abstracted by `writeOk`: whether the `addch` call at this
coordinate succeeds or raises `curses.error`. Returns the new buffer and
whether an underlying surface write was issued. -/
def draw_pixel (b : Buffer) (pixel : String) (x y : ℤ) (writeOk : Bool) :
    Buffer × Bool :=
  if b (x, y) ≠ some pixel then
    if writeOk then (bufSet b (x, y) (some pixel), true)
    else (bufSet b (x, y) none, true)
  else (b, false)

/-- A Python `ZoneInfo` value: either the UTC zone object or a zone
built from another IANA identifier. -/
inductive PyTz
  | utc
  | named (s : String)
deriving DecidableEq, Repr

/-- The timezone in which `datetime.now(tz=...)` samples: the system
local timezone when the argument is `None`, otherwise the given zone. -/
inductive SampleTz
  | localtime
  | zone (z : PyTz)
deriving DecidableEq, Repr

/-- `Quartz.__init__` (`mechanism.py` lines 17-35): the stored
`timezone_info` is `timezone or ZoneInfo("UTC")`; a `ZoneInfo` object is
always truthy and `None` is falsy. -/
def quartz_init_tz (timezone : Option PyTz) : PyTz :=
  timezone.getD PyTz.utc

/-- The timezone actually used by `datetime.now(tz=self.timezone_info)`
inside `Quartz.run`: `timezone_info` is never `None`, so the sample is
taken in that zone. -/
def quartz_sample_tz (timezone : Option PyTz) : SampleTz :=
  SampleTz.zone (quartz_init_tz timezone)

/-- One observable event of a `Quartz.run` loop iteration: either the
stop event was found set by the `wait` call, or the clock was sampled
and returned the POSIX timestamp `t` (a float, modelled as `ℚ`). -/
inductive QEvent
  | sample (t : ℚ)
  | stopEv
deriving DecidableEq, Repr

/-- `Quartz.run` (`mechanism.py` lines 37-62) on a schedule of loop
events: starting from the previously observed timestamp `last`, the loop
exits at the first stop event, and each sampled timestamp triggers the
update callback exactly when it differs from the stored `last`
timestamp. Returns the timestamps passed to the callback, in order. -/
def quartz_run (last : ℚ) : List QEvent → List ℚ
  | [] => []
  | QEvent.stopEv :: _ => []
  | QEvent.sample t :: evs =>
      if t ≠ last then t :: quartz_run t evs else quartz_run last evs

/-- Modelled from the spec ("whenever the integer-second value of now
differs from the previously observed integer-second value, invoke the
registered update callback with the new timestamp, then record the new
second value"): the tick rule that compares integer-second values
instead of raw timestamps. -/
def quartz_spec_run (lastSec : ℤ) : List QEvent → List ℚ
  | [] => []
  | QEvent.stopEv :: _ => []
  | QEvent.sample t :: evs =>
      if ⌊t⌋ ≠ lastSec then t :: quartz_spec_run ⌊t⌋ evs else quartz_spec_run lastSec evs

/-- The sampled timestamps a run schedule delivers before the first stop
event. -/
def samples_before_stop : List QEvent → List ℚ
  | [] => []
  | QEvent.stopEv :: _ => []
  | QEvent.sample t :: evs => t :: samples_before_stop evs

/-- A rational that is a whole number of seconds. -/
def IsWhole (q : ℚ) : Prop := ∃ n : ℤ, q = (n : ℚ)

/-! ## Claim theorems -/

/-- C7: `datetime_slicer` with `show_seconds=false, military_time=false`
maps 00:00:00 to `[1,2,':',0,0,' ','A','M']` and 13:05:00 to
`[0,1,':',0,5,' ','P','M']`; with `show_seconds=true,
military_time=true` it maps 23:59:59 to `[2,3,':',5,9,':',5,9]`; and the
12-hour value wraps correctly at the midnight and noon boundaries (hour
00 displays as 12 AM and hour 12 as 12 PM). -/
theorem slicer_concrete_values :
    datetime_slicer 0 0 0 false false =
      [.int 1, .int 2, .str ":", .int 0, .int 0, .str " ", .str "A", .str "M"]
    ∧ datetime_slicer 13 5 0 false false =
      [.int 0, .int 1, .str ":", .int 0, .int 5, .str " ", .str "P", .str "M"]
    ∧ datetime_slicer 23 59 59 true true =
      [.int 2, .int 3, .str ":", .int 5, .int 9, .str ":", .int 5, .int 9]
    ∧ datetime_slicer 12 0 0 false false =
      [.int 1, .int 2, .str ":", .int 0, .int 0, .str " ", .str "P", .str "M"] :=
  ⟨rfl, rfl, rfl, rfl⟩

/-- C2: evaluation of the glyph lookup of `font.py`/`view.py` at in-
alphabet symbols. Contrary to the specified 5×3 = 15-cell invariant, the
digit and colon glyphs come back with 16 cells (the leading dummy bit of
the 16-bit bitmap string is never stripped), and the space and letter
glyphs are stored as machine integers, so `list(...)` on them raises
`TypeError` instead of producing any cell grid at all. -/
theorem glyph_cells_eval :
    map_to_symbols [Elem.str " "] = .error PyErr.typeError
    ∧ map_to_symbols [Elem.str "A"] = .error PyErr.typeError
    ∧ map_to_symbols [Elem.str "P"] = .error PyErr.typeError
    ∧ map_to_symbols [Elem.str "M"] = .error PyErr.typeError
    ∧ map_to_symbols [Elem.int 0] = .ok ["0111101101101111".toList]
    ∧ ("0111101101101111".toList).length = 16
    ∧ map_to_symbols [Elem.str ":"] = .ok ["0000010000010000".toList]
    ∧ ("0000010000010000".toList).length = 16 :=
  ⟨rfl, rfl, rfl, rfl, rfl, rfl, rfl, rfl⟩

/-- C3 counterexample: with `show_seconds=true, military_time=false` the
slicer output at 23:59:59 has length 11, which is none of the lengths 5,
8, 10, 13 asserted by the claim. -/
theorem slicer_length_eleven :
    (datetime_slicer 23 59 59 true false).length = 11
    ∧ ¬ ((datetime_slicer 23 59 59 true false).length = 5
        ∨ (datetime_slicer 23 59 59 true false).length = 8
        ∨ (datetime_slicer 23 59 59 true false).length = 10
        ∨ (datetime_slicer 23 59 59 true false).length = 13) :=
  ⟨rfl, by decide⟩

/-- C3 amended: for every timestamp and flag combination the slicer
output length equals the glyph count `5 + (3 if show_seconds) +
(3 if not military_time)` that the layout engine recomputes, so it is
exactly 5, 8, or 11 depending on the flag combination. -/
theorem slicer_length_formula (h m s : ℕ) (ss mt : Bool) :
    ((datetime_slicer h m s ss mt).length : ℤ) = clock_digits_count ss mt
    ∧ (clock_digits_count ss mt = 5 ∨ clock_digits_count ss mt = 8
        ∨ clock_digits_count ss mt = 11) := by
  cases ss <;> cases mt <;>
    constructor <;>
    simp [datetime_slicer, clock_digits_count, pyAmPm] <;>
    (try split_ifs) <;>
    (try decide)

/-- C4 counterexample: the integer symbol -1 is outside the fixed
alphabet, yet the glyph lookup does not fail: Python's negative list
indexing wraps around, and `map_to_symbols` succeeds, returning the
glyph of the digit 9. -/
theorem negative_symbol_lookup_succeeds :
    inAlphabet (Elem.int (-1)) = false
    ∧ map_to_symbols [Elem.int (-1)] = .ok ["0111101111001111".toList] :=
  ⟨rfl, rfl⟩

/-- C4 amended: any string symbol outside the alphabet makes the glyph
lookup raise `KeyError`, and any integer symbol outside -10..9 makes it
raise `IndexError`; `map_to_symbols` propagates the error unchanged,
also past earlier valid elements. However, integers in -10..-1 are
accepted by Python's negative list indexing and yield a digit glyph
instead of failing. -/
theorem lookup_error_propagation (s : String) (n k : ℤ) (es : List Elem)
    (hs : s ≠ ":" ∧ s ≠ " " ∧ s ≠ "A" ∧ s ≠ "P" ∧ s ≠ "M")
    (hn : 10 ≤ n ∨ n < -10) (hk : -10 ≤ k ∧ k ≤ -1) :
    map_to_symbols (Elem.str s :: es) = .error PyErr.keyError
    ∧ map_to_symbols (Elem.int n :: es) = .error PyErr.indexError
    ∧ map_to_symbols (Elem.int 0 :: Elem.str s :: es) = .error PyErr.keyError
    ∧ map_to_symbols [Elem.int k] = .ok [(DIGIT.getD (k + 10).toNat "").toList] := by
  have hd : glyph_dict s = none := by
    simp [glyph_dict, hs.1, hs.2.1, hs.2.2.1, hs.2.2.2.1, hs.2.2.2.2]
  have h1 : map_to_symbols (Elem.str s :: es) = .error PyErr.keyError := by
    simp [map_to_symbols, map_one, lookup_glyph, hd]
    rfl
  have hidx : pyListIndex DIGIT n = .error .indexError := by
    have hlen : ((DIGIT.length : ℕ) : ℤ) = 10 := by decide
    unfold pyListIndex
    rw [hlen]
    rcases hn with h | h
    · rw [if_neg (by omega), if_neg (by omega)]
    · rw [if_neg (by omega), if_neg (by omega)]
  have h2 : map_to_symbols (Elem.int n :: es) = .error PyErr.indexError := by
    simp [map_to_symbols, map_one, lookup_glyph, hidx]
    rfl
  have h3 : map_to_symbols (Elem.int 0 :: Elem.str s :: es) = .error PyErr.keyError := by
    have hstep : map_to_symbols (Elem.int 0 :: Elem.str s :: es)
        = map_to_symbols (Elem.str s :: es) >>= fun rest =>
            .ok ("0111101101101111".toList :: rest) := rfl
    rw [hstep, h1]
    rfl
  have h4 : map_to_symbols [Elem.int k] = .ok [(DIGIT.getD (k + 10).toNat "").toList] := by
    obtain ⟨hk1, hk2⟩ := hk
    interval_cases k <;> rfl
  exact ⟨h1, h2, h3, h4⟩

/-- Witness for the amended C4 theorem at the concrete symbols "Z", 10,
and -1 with an empty tail. -/
theorem lookup_error_propagation_witness :
    (("Z" : String) ≠ ":" ∧ ("Z" : String) ≠ " " ∧ ("Z" : String) ≠ "A"
      ∧ ("Z" : String) ≠ "P" ∧ ("Z" : String) ≠ "M")
    ∧ ((10 : ℤ) ≤ 10 ∨ (10 : ℤ) < -10)
    ∧ ((-10 : ℤ) ≤ -1 ∧ (-1 : ℤ) ≤ -1)
    ∧ (map_to_symbols [Elem.str "Z"] = .error PyErr.keyError
      ∧ map_to_symbols [Elem.int 10] = .error PyErr.indexError
      ∧ map_to_symbols [Elem.int 0, Elem.str "Z"] = .error PyErr.keyError
      ∧ map_to_symbols [Elem.int (-1)]
          = .ok [(DIGIT.getD ((-1 : ℤ) + 10).toNat "").toList]) :=
  ⟨by decide, by decide, by decide,
    lookup_error_propagation "Z" 10 (-1) [] (by decide) (by decide) (by decide)⟩

/-- C9 counterexample: a `Quartz` constructed without a timezone
identifier stores `ZoneInfo("UTC")` and samples the current time in UTC,
not in the system's local timezone. -/
theorem quartz_default_not_local :
    quartz_sample_tz none = SampleTz.zone PyTz.utc
    ∧ quartz_sample_tz none ≠ SampleTz.localtime :=
  ⟨rfl, by decide⟩

/-- C9 amended: when the Tick Engine (`Quartz`) is constructed without a
timezone identifier it defaults to UTC (as its own docstring states),
and an explicitly supplied timezone is stored unchanged. -/
theorem quartz_default_utc :
    quartz_init_tz none = PyTz.utc
    ∧ (∀ z : PyTz, quartz_init_tz (some z) = z)
    ∧ quartz_sample_tz none = SampleTz.zone PyTz.utc :=
  ⟨rfl, fun _ => rfl, rfl⟩

/-- C5: the fit check fails if and only if the total width exceeds
`terminalWidth - originX` or the cell height exceeds
`terminalHeight - originY`; at the boundary an exact fit succeeds, and
one cell less of available width or height fails. -/
theorem check_fit_false_iff (v : ViewState) :
    (check_fit v = false ↔
      total_length_with_spaces v > v.screen_width - v.top_left_x
      ∨ pixel_height v > v.screen_height - v.top_left_y)
    ∧ check_fit { v with
        screen_height := v.top_left_y + pixel_height v
        screen_width := v.top_left_x + total_length_with_spaces v } = true
    ∧ check_fit { v with
        screen_height := v.top_left_y + pixel_height v
        screen_width := v.top_left_x + total_length_with_spaces v - 1 } = false
    ∧ check_fit { v with
        screen_height := v.top_left_y + pixel_height v - 1
        screen_width := v.top_left_x + total_length_with_spaces v } = false := by
  have key : ∀ sh sw y x T C : ℤ,
      ((if sh - y < C then false else if sw - x ≥ T then true else false) = false
        ↔ T > sw - x ∨ C > sh - y) := by
    intro sh sw y x T C
    split_ifs with h1 h2 <;> simp <;> omega
  have key2 : ∀ y x T C : ℤ,
      (if (y + C) - y < C then false
        else if (x + T) - x ≥ T then true else false) = true := by
    intro y x T C
    rw [if_neg (by omega), if_pos (by omega)]
  have key3 : ∀ y x T C : ℤ,
      (if (y + C) - y < C then false
        else if (x + T - 1) - x ≥ T then true else false) = false := by
    intro y x T C
    rw [if_neg (by omega), if_neg (by omega)]
  have key4 : ∀ y x T C : ℤ,
      (if (y + C - 1) - y < C then false
        else if (x + T) - x ≥ T then true else false) = false := by
    intro y x T C
    rw [if_pos (by omega)]
  exact ⟨key v.screen_height v.screen_width v.top_left_y v.top_left_x
            (total_length_with_spaces v) (pixel_height v),
        key2 v.top_left_y v.top_left_x (total_length_with_spaces v) (pixel_height v),
        key3 v.top_left_y v.top_left_x (total_length_with_spaces v) (pixel_height v),
        key4 v.top_left_y v.top_left_x (total_length_with_spaces v) (pixel_height v)⟩

/-- C8: with the centering flag set, the recomputed origin is
`originX = round((terminalWidth - totalWidth) / 2)` and
`originY = round((terminalHeight - cellHeight) / 2)` (Python 3 `round`,
which rounds exact halves to the nearest even integer), and recomputing
the centering twice in a row with unchanged terminal dimensions and
settings produces identical origins. -/
theorem centering_formula_idempotent (v : ViewState)
    (hc : v.align_to_center = true) :
    (resize_center_step v).top_left_x
        = pyRoundHalf (v.screen_width - total_length_with_spaces v)
    ∧ (resize_center_step v).top_left_y
        = pyRoundHalf (v.screen_height - pixel_height v)
    ∧ resize_center_step (resize_center_step v) = resize_center_step v := by
  have h1 : resize_center_step v = calculate_center_xy_position v := by
    simp [resize_center_step, hc]
  refine ⟨?_, ?_, ?_⟩
  · rw [h1]
    rfl
  · rw [h1]
    rfl
  rw [h1]
  have h2 : resize_center_step (calculate_center_xy_position v)
      = calculate_center_xy_position (calculate_center_xy_position v) := by
    have hcc : (calculate_center_xy_position v).align_to_center = true := hc
    simp [resize_center_step, hcc]
  rw [h2]
  rfl

/-- A concrete centered view state used as a witness input. -/
def sampleView : ViewState := ⟨0, 0, 2, 1, false, false, true, 24, 80⟩

/-- Witness for the C8 theorem at a concrete centered view state. -/
theorem centering_formula_idempotent_witness :
    sampleView.align_to_center = true
    ∧ ((resize_center_step sampleView).top_left_x
        = pyRoundHalf (sampleView.screen_width - total_length_with_spaces sampleView)
      ∧ (resize_center_step sampleView).top_left_y
        = pyRoundHalf (sampleView.screen_height - pixel_height sampleView)
      ∧ resize_center_step (resize_center_step sampleView)
        = resize_center_step sampleView) :=
  ⟨rfl, centering_formula_idempotent sampleView rfl⟩

/-- C6: `__draw_pixel` issues the underlying terminal write iff the
buffer entry at the coordinate is absent or differs from the requested
pixel value; after a successful write the entry holds the new value, so
an identical second draw issues no write and a different second draw
issues one; and a failed write removes the entry so an identical
retry issues the write again. -/
theorem draw_pixel_diffing (b : Buffer) (p q : String) (x y : ℤ) (ok : Bool)
    (hpq : p ≠ q) (hb : b (x, y) ≠ some p) :
    ((draw_pixel b p x y ok).2 = true ↔ b (x, y) ≠ some p)
    ∧ (draw_pixel b p x y true).2 = true
    ∧ (draw_pixel b p x y true).1 (x, y) = some p
    ∧ (draw_pixel (draw_pixel b p x y true).1 p x y true).2 = false
    ∧ (draw_pixel (draw_pixel b p x y true).1 q x y true).2 = true
    ∧ (draw_pixel b p x y false).1 (x, y) = none
    ∧ (draw_pixel (draw_pixel b p x y false).1 p x y true).2 = true := by
  have hwrote : ∀ (b2 : Buffer) (p2 : String) (ok2 : Bool),
      (draw_pixel b2 p2 x y ok2).2 = true ↔ b2 (x, y) ≠ some p2 := by
    intro b2 p2 ok2
    unfold draw_pixel
    split_ifs with h <;> cases ok2 <;> simp [h]
  have hsucc : (draw_pixel b p x y true).1 (x, y) = some p := by
    unfold draw_pixel
    by_cases h : b (x, y) ≠ some p
    · rw [if_pos h]
      simp [bufSet]
    · rw [if_neg h]
      exact not_not.mp h
  have hfail : (draw_pixel b p x y false).1 (x, y) = none := by
    unfold draw_pixel
    rw [if_pos hb]
    simp [bufSet]
  refine ⟨hwrote b p ok, (hwrote b p true).mpr hb, hsucc, ?_, ?_, hfail, ?_⟩
  · cases hB : (draw_pixel (draw_pixel b p x y true).1 p x y true).2
    · rfl
    · exact absurd hsucc ((hwrote (draw_pixel b p x y true).1 p true).mp hB)
  · rw [hwrote, hsucc]
    simpa using hpq
  · rw [hwrote, hfail]
    simp

/-- The empty pixel buffer (a freshly cleared dict). -/
def emptyBuffer : Buffer := fun _ => none

/-- Witness for the C6 theorem on the empty buffer at the origin with
pixel values "1" and "0". -/
theorem draw_pixel_diffing_witness :
    (("1" : String) ≠ "0")
    ∧ emptyBuffer (0, 0) ≠ some "1"
    ∧ (((draw_pixel emptyBuffer "1" 0 0 true).2 = true ↔ emptyBuffer (0, 0) ≠ some "1")
      ∧ (draw_pixel emptyBuffer "1" 0 0 true).2 = true
      ∧ (draw_pixel emptyBuffer "1" 0 0 true).1 (0, 0) = some "1"
      ∧ (draw_pixel (draw_pixel emptyBuffer "1" 0 0 true).1 "1" 0 0 true).2 = false
      ∧ (draw_pixel (draw_pixel emptyBuffer "1" 0 0 true).1 "0" 0 0 true).2 = true
      ∧ (draw_pixel emptyBuffer "1" 0 0 false).1 (0, 0) = none
      ∧ (draw_pixel (draw_pixel emptyBuffer "1" 0 0 false).1 "1" 0 0 true).2 = true) :=
  ⟨by decide, by simp [emptyBuffer],
    draw_pixel_diffing emptyBuffer "1" "0" 0 0 true (by decide) (by simp [emptyBuffer])⟩

/-- Whether the glyph-table lookup of an element succeeds (raises no
exception). -/
def lookup_ok (e : Elem) : Bool :=
  match lookup_glyph e with
  | .ok _ => true
  | .error _ => false

/-- C10: for every datetime and flag combination, every element of the
slicer output is an integer in 0..9 or one of the five separator and
meridiem strings, and the glyph-table lookup of every such element
succeeds — no unchecked lookup failure is reachable on the
slicer-to-mapper path. -/
theorem slicer_output_in_domain (h m s : ℕ) (ss mt : Bool)
    (hh : h < 24) (hm : m < 60) (hs2 : s < 60) :
    (datetime_slicer h m s ss mt).all (fun e => inAlphabet e && lookup_ok e) = true := by
  have hb1 : ∀ x : ℤ, 0 ≤ x → x ≤ 9 → inAlphabet (Elem.int x) = true := by
    intro x hx0 hx9
    interval_cases x <;> rfl
  have hb2 : ∀ x : ℤ, 0 ≤ x → x ≤ 9 → lookup_ok (Elem.int x) = true := by
    intro x hx0 hx9
    interval_cases x <;> rfl
  have hpy : pyHourI h ≤ 12 := by
    unfold pyHourI
    split_ifs with hz
    · exact le_refl 12
    · omega
  have hampm : pyAmPm h = "AM" ∨ pyAmPm h = "PM" := by
    unfold pyAmPm
    split_ifs <;> simp
  rcases hampm with ha | ha <;>
    cases mt <;> cases ss <;>
      simp [datetime_slicer, ha, List.all_append, List.all_cons, Bool.and_eq_true] <;>
      (repeat' apply And.intro) <;>
      first
        | rfl
        | (apply hb1 <;> omega)
        | (apply hb2 <;> omega)

/-- Witness for the C10 theorem at the concrete time 13:05:00 in
12-hour mode. -/
theorem slicer_output_in_domain_witness :
    (13 : ℕ) < 24 ∧ (5 : ℕ) < 60 ∧ (0 : ℕ) < 60
    ∧ (datetime_slicer 13 5 0 false false).all
        (fun e => inAlphabet e && lookup_ok e) = true :=
  ⟨by decide, by decide, by decide,
    slicer_output_in_domain 13 5 0 false false (by decide) (by decide) (by decide)⟩

/-- Helper: events after the first observed stop contribute no callback
invocations. -/
lemma quartz_run_stop_lemma (last : ℚ) (pre post : List QEvent) :
    quartz_run last (pre ++ QEvent.stopEv :: post)
      = quartz_run last (pre ++ [QEvent.stopEv]) := by
  induction pre generalizing last with
  | nil => rfl
  | cons e pre ih =>
    cases e with
    | stopEv => rfl
    | sample t =>
      simp only [List.cons_append, quartz_run]
      split_ifs <;> simp [ih]

/-- Helper: when the previously observed timestamp and all sampled
timestamps are whole seconds, the code's raw-timestamp comparison agrees
with the specification's integer-second comparison. -/
lemma quartz_run_floor (n : ℤ) (evs : List QEvent)
    (hw : ∀ t ∈ samples_before_stop evs, IsWhole t) :
    quartz_run (n : ℚ) evs = quartz_spec_run n evs := by
  induction evs generalizing n with
  | nil => rfl
  | cons e evs ih =>
    cases e with
    | stopEv => rfl
    | sample t =>
      obtain ⟨k, rfl⟩ := hw t (by simp [samples_before_stop])
      have hw' : ∀ u ∈ samples_before_stop evs, IsWhole u := by
        intro u hu
        exact hw u (by simp [samples_before_stop, hu])
      have hfl : ⌊((k : ℚ))⌋ = k := Int.floor_intCast k
      simp only [quartz_run, quartz_spec_run, hfl]
      by_cases hkn : k = n
      · subst hkn
        rw [if_neg (by simp), if_neg (by simp)]
        exact ih k hw'
      · rw [if_pos (by exact_mod_cast hkn), if_pos hkn, ih k hw']

/-- Helper: for a non-decreasing sample schedule the callback receives a
strictly increasing sequence of timestamps. -/
lemma quartz_run_chain (last : ℚ) (evs : List QEvent)
    (hmono : List.Chain' (· ≤ ·) (last :: samples_before_stop evs)) :
    List.Chain' (· < ·) (last :: quartz_run last evs) := by
  induction evs generalizing last with
  | nil => simp [quartz_run]
  | cons e evs ih =>
    cases e with
    | stopEv => simp [quartz_run]
    | sample t =>
      simp only [samples_before_stop] at hmono
      obtain ⟨hle, htail⟩ := List.chain'_cons.mp hmono
      simp only [quartz_run]
      by_cases hne : t ≠ last
      · rw [if_pos hne]
        rw [List.chain'_cons]
        exact ⟨lt_of_le_of_ne hle hne.symm, ih t htail⟩
      · rw [if_neg hne]
        have ht : t = last := not_not.mp hne
        rw [ht] at htail
        exact ih last htail

/-- C1: for a run of the Tick Engine whose clock advances by whole
seconds (the previously observed timestamp and all samples before the
stop are integers) and is non-decreasing, the update callback is invoked
exactly when the integer-second value of the sampled time differs from
the previously observed one (the code's raw-timestamp rule coincides
with the integer-second rule), the invocation timestamps are
non-decreasing and pairwise distinct (exactly once per boundary
crossed), and no invocation occurs after a stop is observed. -/
theorem quartz_tick_engine (last : ℚ) (n0 : ℤ) (ns : List ℤ)
    (evs pre post : List QEvent)
    (hlast : last = (n0 : ℚ))
    (hw : samples_before_stop evs = ns.map (fun k : ℤ => (k : ℚ)))
    (hmono : List.Chain' (· ≤ ·) (last :: samples_before_stop evs)) :
    quartz_run last evs = quartz_spec_run ⌊last⌋ evs
    ∧ List.Chain' (· ≤ ·) (quartz_run last evs)
    ∧ (quartz_run last evs).Nodup
    ∧ quartz_run last (pre ++ QEvent.stopEv :: post)
        = quartz_run last (pre ++ [QEvent.stopEv]) := by
  subst hlast
  have hw' : ∀ t ∈ samples_before_stop evs, IsWhole t := by
    rw [hw]
    intro t ht
    obtain ⟨k, _, rfl⟩ := List.mem_map.mp ht
    exact ⟨k, rfl⟩
  have hchain := quartz_run_chain (n0 : ℚ) evs hmono
  refine ⟨?_, ?_, ?_, quartz_run_stop_lemma _ pre post⟩
  · rw [Int.floor_intCast n0]
    exact quartz_run_floor n0 evs hw'
  · exact (hchain.tail).imp (fun a b hab => le_of_lt hab)
  · exact (List.chain'_iff_pairwise.mp hchain.tail).imp ne_of_lt

/-- Witness for the C1 theorem on a concrete schedule: samples at 1, 1,
2 seconds, a stop, and a late sample at 3 seconds. -/
theorem quartz_tick_engine_witness :
    ((0 : ℚ) = ((0 : ℤ) : ℚ))
    ∧ samples_before_stop
        [QEvent.sample 1, QEvent.sample 1, QEvent.sample 2, QEvent.stopEv, QEvent.sample 3]
      = List.map (fun k : ℤ => (k : ℚ)) [1, 1, 2]
    ∧ List.Chain' (· ≤ ·) ((0 : ℚ) :: samples_before_stop
        [QEvent.sample 1, QEvent.sample 1, QEvent.sample 2, QEvent.stopEv, QEvent.sample 3])
    ∧ (quartz_run 0
          [QEvent.sample 1, QEvent.sample 1, QEvent.sample 2, QEvent.stopEv, QEvent.sample 3]
        = quartz_spec_run ⌊(0 : ℚ)⌋
          [QEvent.sample 1, QEvent.sample 1, QEvent.sample 2, QEvent.stopEv, QEvent.sample 3]
      ∧ List.Chain' (· ≤ ·) (quartz_run 0
          [QEvent.sample 1, QEvent.sample 1, QEvent.sample 2, QEvent.stopEv, QEvent.sample 3])
      ∧ (quartz_run 0
          [QEvent.sample 1, QEvent.sample 1, QEvent.sample 2, QEvent.stopEv, QEvent.sample 3]).Nodup
      ∧ quartz_run 0 ([QEvent.sample 1] ++ QEvent.stopEv :: [QEvent.sample 5])
          = quartz_run 0 ([QEvent.sample 1] ++ [QEvent.stopEv])) :=
  ⟨rfl, by norm_num [samples_before_stop],
    by norm_num [samples_before_stop, List.chain'_cons],
    quartz_tick_engine 0 0 [1, 1, 2]
      [QEvent.sample 1, QEvent.sample 1, QEvent.sample 2, QEvent.stopEv, QEvent.sample 3]
      [QEvent.sample 1] [QEvent.sample 5] rfl
      (by norm_num [samples_before_stop])
      (by norm_num [samples_before_stop, List.chain'_cons])⟩

end PTock
